import Mathlib

/-!
# Verification of the QR-code batch generator (`src/main.py`)

Shallow embedding of the two components of the repository:

* `generate_batch` (src/main.py lines 32-87): per-location QR rendering,
  caption measurement, canvas arithmetic, compositing and saving;
* `create_full_page_qr_doc` (src/main.py lines 90-126): scanning a directory
  for PNG files and assembling them into a landscape A4 document.

External libraries are modelled as follows: the `qrcode` encoder and the PIL
font-measurement call are abstract oracles passed as parameters (the repository
does not contain them); PIL images are records carrying the data the program
computes about them (mode, size, pasted positions); the file system is a map
from path strings to saved images; `python-docx` documents are records of
section settings and paragraphs.  All integer arithmetic from the Python
source is carried out on `Int`/`Nat` (Python integers are unbounded), with
Python's floor division `//` rendered as `Int.fdiv`.
-/

namespace QRCode

/-- PIL image colour mode: the canvas is created `"RGBA"` (line 72) and
converted to `"RGB"` before saving (line 85). -/
inductive Mode
  | RGBA
  | RGB
deriving DecidableEq, Repr

/-- Error raised by the `qrcode` library when the payload exceeds the
capacity of the QR format (`qrcode.exceptions.DataOverflowError`). -/
inductive QRErr
  | dataOverflow
deriving DecidableEq, Repr

deriving instance DecidableEq for Except

/-- A rasterised QR symbol, as returned by `qr.make_image(...)` (line 59):
a pixel raster of known width and height. -/
structure QRImage where
  w : Nat
  h : Nat
deriving DecidableEq, Repr

/-- Result of `font.getbbox(data)` (line 63): the bounding box
`(x0, y0, x1, y1)` of the rendered text. -/
structure BBox where
  x0 : Int
  y0 : Int
  x1 : Int
  y1 : Int
deriving DecidableEq, Repr

/-- The external `qrcode` library, abstracted: given `box_size`, `border` and
the payload string, produce the rasterised image or fail with an overflow
error.  Models lines 56-59 (`qrcode.QRCode(box_size=..., border=...)`,
`add_data`, `make(fit=True)`, `make_image`). -/
def Encoder := Nat → Nat → String → Except QRErr QRImage

/-- The font obtained by `get_font` (line 40), abstracted to the only
operation the program uses: `font.getbbox` (line 63). -/
def GetBBox := String → BBox

/-- `cfg.settings` (lines 34-37): layout settings, fixed for the batch.
Pixel quantities are natural numbers. -/
structure Settings where
  font_size : Nat
  padding : Nat
  box_size : Nat
  output_dir : String
deriving DecidableEq, Repr

/-- The QR border hard-coded at line 56 (`border=4`). -/
def qrBorder : Nat := 4

/-- The in-memory canvas after one loop iteration (lines 56-79), just before
saving: its mode and size, the QR image and where it was pasted, and the
caption text and where it was drawn. -/
structure Rendered where
  mode : Mode
  width : Int
  height : Int
  boxSize : Nat
  border : Nat
  qr : QRImage
  qrPos : Int × Int
  text : String
  textPos : Int × Int
deriving DecidableEq, Repr

/-- Lines 60-79 of `generate_batch`, after a successful `make_image`:
measure the caption (line 63), compute the canvas size (lines 68-69), and
composite QR and caption (lines 72-79).  Python's floor division `//` is
`Int.fdiv`. -/
def composite (s : Settings) (data : String) (qr_img : QRImage) (bbox : BBox) :
    Rendered :=
  let qr_w : Int := qr_img.w
  let qr_h : Int := qr_img.h
  let text_w : Int := bbox.x1 - bbox.x0
  let text_h : Int := bbox.y1 - bbox.y0
  let canvas_width : Int := max qr_w text_w + (s.padding : Int) * 2
  let canvas_height : Int := qr_h + text_h + (s.padding : Int) * 3
  let qr_x : Int := (canvas_width - qr_w).fdiv 2
  let text_x : Int := (canvas_width - text_w).fdiv 2
  let text_y : Int := qr_h + (s.padding : Int) * 2 - bbox.y0
  { mode := .RGBA
    width := canvas_width
    height := canvas_height
    boxSize := s.box_size
    border := qrBorder
    qr := qr_img
    qrPos := (qr_x, (s.padding : Int))
    text := data
    textPos := (text_x, text_y) }

/-- Lines 56-79 of `generate_batch`: encode the QR symbol (an encoding error
propagates), then build the canvas. -/
def render (enc : Encoder) (font : GetBBox) (s : Settings) (data : String) :
    Except QRErr Rendered :=
  match enc s.box_size qrBorder data with
  | .error e => .error e
  | .ok qr_img => .ok (composite s data qr_img (font data))

/-- `canvas.convert("RGB")` (line 85). -/
def convertRGB (r : Rendered) : Rendered := { r with mode := .RGB }

/-- Python's `str.replace(c₁, c₂)` for single-character pattern and
replacement: every occurrence of the character is substituted. -/
def replaceChar (c₁ c₂ : Char) (s : String) : String :=
  ⟨s.data.map fun c => if c = c₁ then c₂ else c⟩

/-- Line 83: `data.replace("/", "-").replace("\\", "-")`. -/
def sanitize (data : String) : String :=
  replaceChar '\\' '-' (replaceChar '/' '-' data)

/-- Line 84: `os.path.join(output_dir, f"{safe_filename}.png")`; for a
relative second component this is concatenation with a `/` separator. -/
def pathOf (s : Settings) (data : String) : String :=
  s.output_dir ++ "/" ++ sanitize data ++ ".png"

/-- The log lines `generate_batch` emits: the start-of-batch summary
(line 52) and the per-file success line (line 87). -/
inductive LogLine
  | start (n : Nat)
  | generated (path : String)
deriving DecidableEq, Repr

/-- The output file system: a map from paths to saved images. -/
abbrev FS := String → Option Rendered

/-- Saving a file at a path: the file system afterwards.  An existing file at
the same path is overwritten. -/
def writeFile (fs : FS) (p : String) (v : Rendered) : FS :=
  fun x => if x = p then some v else fs x

/-- The loop of `generate_batch` (lines 54-87): process the locations in
order; each success saves the RGB-converted canvas at the sanitized path and
logs a line; an encoding error stops the loop at once, leaving the files
written so far.  Returns the final file system, the per-file log lines in
order, and the uncaught error, if any. -/
def runLocs (enc : Encoder) (font : GetBBox) (s : Settings) :
    List String → FS → FS × List LogLine × Option QRErr
  | [], fs => (fs, [], none)
  | data :: rest, fs =>
    match render enc font s data with
    | .error e => (fs, [], some e)
    | .ok r =>
      let p := pathOf s data
      let out := runLocs enc font s rest (writeFile fs p (convertRGB r))
      (out.1, .generated p :: out.2.1, out.2.2)

/-- The directory-creation and file-system state `generate_batch` acts on. -/
structure GenState where
  dirs : List String
  fs : FS

/-- `os.makedirs(output_dir, exist_ok=True)` (line 39): creates the directory
if absent, no error if it already exists. -/
def makedirs (d : String) (dirs : List String) : List String :=
  if d ∈ dirs then dirs else d :: dirs

/-- The configuration `generate_batch` consumes: layout settings and the
ordered list of location strings. -/
structure Config where
  settings : Settings
  locations : List String

/-- Result of a `generate_batch` run: final state, the emitted log lines, and
the uncaught error, if any. -/
structure BatchResult where
  state : GenState
  logs : List LogLine
  err : Option QRErr

/-- `generate_batch` (lines 32-87): create the output directory, emit the
start-of-batch summary line, then process every location in order. -/
def generate_batch (enc : Encoder) (font : GetBBox) (cfg : Config)
    (st : GenState) : BatchResult :=
  let out := runLocs enc font cfg.settings cfg.locations st.fs
  { state := { dirs := makedirs cfg.settings.output_dir st.dirs, fs := out.1 }
    logs := .start cfg.locations.length :: out.2.1
    err := out.2.2 }

/-! ## The page compiler (`create_full_page_qr_doc`, lines 90-126) -/

/-- An embedded picture: the path it was read from and its requested height
in EMU (`python-docx` stores lengths as integer EMU; `Cm(18.0)` is
`6480000`). -/
structure Picture where
  path : String
  heightEmu : Nat
deriving DecidableEq, Repr

/-- A run inside a paragraph: its text and its embedded pictures
(`p.add_run()` makes a run with empty text; `run.add_picture` adds one
picture, line 123). -/
structure DocRun where
  text : String
  pictures : List Picture
deriving DecidableEq, Repr

/-- A paragraph: its alignment (`1` is `WD_ALIGN_PARAGRAPH.CENTER`, line 118;
`none` is the default) and its runs. -/
structure Paragraph where
  alignment : Option Nat
  runs : List DocRun
deriving DecidableEq, Repr

/-- Page orientation (line 95 sets `WD_ORIENT.LANDSCAPE`). -/
inductive Orient
  | portrait
  | landscape
deriving DecidableEq, Repr

/-- The document's single section (lines 94-103), lengths in integer EMU:
`Cm(29.7) = 10692000`, `Cm(21.0) = 7560000`, `Cm(1.0) = 360000`,
`Cm(1.5) = 540000`. -/
structure DocSection where
  orientation : Orient
  pageWidthEmu : Nat
  pageHeightEmu : Nat
  leftMarginEmu : Nat
  rightMarginEmu : Nat
  topMarginEmu : Nat
  bottomMarginEmu : Nat
deriving DecidableEq, Repr

/-- A document: one section and a list of paragraphs. -/
structure Docx where
  sec : DocSection
  paragraphs : List Paragraph
deriving DecidableEq, Repr

/-- The section settings of lines 94-103: A4 landscape, margins
1.0/1.0/1.0/1.5 cm. -/
def a4LandscapeSection : DocSection :=
  { orientation := .landscape
    pageWidthEmu := 10692000
    pageHeightEmu := 7560000
    leftMarginEmu := 360000
    rightMarginEmu := 360000
    topMarginEmu := 360000
    bottomMarginEmu := 540000 }

/-- Line 106: `f.lower().endswith(".png")` — per-character lowercasing, then
a suffix test.  (Only ASCII letters matter for this suffix.) -/
def isPngName (f : String) : Bool :=
  List.isSuffixOf ".png".data (f.data.map Char.toLower)

/-- Lines 105-107: the PNG entries of the directory, sorted lexicographically
(`sorted(...)`). -/
def pngFilesOf (entries : List String) : List String :=
  (entries.filter isPngName).mergeSort

/-- `os.path.splitext(f)[0]` for a bare filename: drop everything from the
last `.` on, unless every character before that dot is itself a dot (a
leading group of dots begins no extension).  Computed at line 114 as
`location_name` and never used afterwards. -/
def splitextRoot (f : String) : String :=
  let cs := f.data
  match ((List.range cs.length).filter fun i => cs.getD i ' ' = '.').getLast? with
  | none => f
  | some i => if (cs.take i).all (· = '.') then f else ⟨cs.take i⟩

/-- One loop iteration (lines 109-123): a new paragraph, centred, whose
single run holds the picture at height `Cm(18.0)`.  No text is ever added to
the paragraph or the run. -/
def qrParagraph (fullPath : String) : Paragraph :=
  { alignment := some 1
    runs := [{ text := "", pictures := [{ path := fullPath, heightEmu := 6480000 }] }] }

/-- The document built from the sorted PNG list (lines 91-123). -/
def buildDoc (output_dir : String) (pngs : List String) : Docx :=
  { sec := a4LandscapeSection
    paragraphs := pngs.map fun filename => qrParagraph (output_dir ++ "/" ++ filename) }

/-- File-system errors surfaced to the compiler. -/
inductive FsError
  | fileNotFound
deriving DecidableEq, Repr

/-- `os.listdir` (line 106): the directory's entries, or `FileNotFoundError`
when the directory does not exist (`none`). -/
def listdir : Option (List String) → Except FsError (List String)
  | none => .error .fileNotFound
  | some entries => .ok entries

/-- `create_full_page_qr_doc` (lines 90-126): list the directory, keep the
PNG entries sorted, and save the assembled document.  The directory contents
are `none` when the directory does not exist; in that case the `listdir`
error propagates and no document is saved. -/
def create_full_page_qr_doc (output_dir : String)
    (dirContents : Option (List String)) : Except FsError Docx :=
  match listdir dirContents with
  | .error e => .error e
  | .ok entries => .ok (buildDoc output_dir (pngFilesOf entries))

/-- All pictures of a paragraph, in order. -/
def paragraphPictures (p : Paragraph) : List Picture :=
  (p.runs.map DocRun.pictures).flatten

/-- All pictures of a document, in order. -/
def docPictures (d : Docx) : List Picture :=
  (d.paragraphs.map paragraphPictures).flatten

/-- A paragraph that holds exactly one centred picture and no text. -/
def centeredPictureOnly (p : Paragraph) : Bool :=
  p.alignment == some 1 &&
    p.runs.length == 1 &&
    p.runs.all fun r => r.text == "" && r.pictures.length == 1

/-! ## Auxiliary notions used by the theorems -/

/-- The per-character action of `sanitize`, i.e. of the two chained
`replace` calls of line 83. -/
def sanChar (c : Char) : Char :=
  if (if c = '/' then '-' else c) = '\\' then '-'
  else if c = '/' then '-' else c

/-- The sequence of `(path, contents)` writes a run of the location loop
performs, in order; the sequence stops at the first encoding error. -/
def writesOf (enc : Encoder) (font : GetBBox) (s : Settings) :
    List String → List (String × Rendered)
  | [] => []
  | data :: rest =>
    match render enc font s data with
    | .error _ => []
    | .ok r => (pathOf s data, convertRGB r) :: writesOf enc font s rest

/-- Apply a sequence of writes to a file system, in order. -/
def applyWrites (fs : FS) (ws : List (String × Rendered)) : FS :=
  ws.foldl (fun f pv => writeFile f pv.1 pv.2) fs

/-- The last write to a given path in a sequence of writes. -/
def lastWrite (x : String) : List (String × Rendered) → Option Rendered
  | [] => none
  | pv :: ws =>
    match lastWrite x ws with
    | some v => some v
    | none => if pv.1 = x then some pv.2 else none

/-! ## Concrete instances used by the witnesses -/

/-- A concrete encoder: a version-1-like QR raster of
`(21 + 2·border)·box_size` square pixels, overflowing on payloads longer
than 20 characters. -/
def encodeDemo : Encoder := fun box border data =>
  if data.length ≤ 20 then
    .ok { w := (21 + 2 * border) * box, h := (21 + 2 * border) * box }
  else
    .error .dataOverflow

/-- A concrete font-measurement oracle: 7 pixels per character, bounding box
from 3 to 13 pixels below the origin. -/
def fontDemo : GetBBox := fun data => { x0 := 0, y0 := 3, x1 := 7 * data.length, y1 := 13 }

/-- The settings of the end-to-end scenario of the specification. -/
def settingsDemo : Settings :=
  { font_size := 20, padding := 10, box_size := 5, output_dir := "data/processed" }

/-- The canvas `render encodeDemo fontDemo settingsDemo "Cafe A"` produces:
QR 145×145, caption 42×10, canvas 165×185. -/
def canvasDemo : Rendered :=
  { mode := .RGBA
    width := 165
    height := 185
    boxSize := 5
    border := 4
    qr := { w := 145, h := 145 }
    qrPos := (10, 10)
    text := "Cafe A"
    textPos := (61, 162) }

/-- The empty file system. -/
def fsEmpty : FS := fun _ => none

/-- A payload that exceeds `encodeDemo`'s capacity. -/
def overflowDemo : String := "a location string that is far too long"

/-- A batch configuration with no locations. -/
def cfgEmptyDemo : Config := { settings := settingsDemo, locations := [] }

/-- An initial generator state: no directories created, empty file system. -/
def stDemo : GenState := { dirs := [], fs := fsEmpty }

/-! ## Basic facts about the canvas construction -/

theorem composite_width (s : Settings) (data : String) (q : QRImage) (b : BBox) :
    (composite s data q b).width =
      max (q.w : Int) (b.x1 - b.x0) + (s.padding : Int) * 2 := rfl

theorem composite_height (s : Settings) (data : String) (q : QRImage) (b : BBox) :
    (composite s data q b).height =
      (q.h : Int) + (b.y1 - b.y0) + (s.padding : Int) * 3 := rfl

theorem composite_qr (s : Settings) (data : String) (q : QRImage) (b : BBox) :
    (composite s data q b).qr = q := rfl

theorem composite_qrPos (s : Settings) (data : String) (q : QRImage) (b : BBox) :
    (composite s data q b).qrPos =
      ((max (q.w : Int) (b.x1 - b.x0) + (s.padding : Int) * 2 - (q.w : Int)).fdiv 2,
        (s.padding : Int)) := rfl

theorem composite_textPos (s : Settings) (data : String) (q : QRImage) (b : BBox) :
    (composite s data q b).textPos =
      ((max (q.w : Int) (b.x1 - b.x0) + (s.padding : Int) * 2 - (b.x1 - b.x0)).fdiv 2,
        (q.h : Int) + (s.padding : Int) * 2 - b.y0) := rfl

theorem composite_border (s : Settings) (data : String) (q : QRImage) (b : BBox) :
    (composite s data q b).border = 4 := rfl

theorem composite_boxSize (s : Settings) (data : String) (q : QRImage) (b : BBox) :
    (composite s data q b).boxSize = s.box_size := rfl

theorem render_ok (enc : Encoder) (font : GetBBox) (s : Settings) (data : String)
    (r : Rendered) :
    render enc font s data = .ok r ↔
      ∃ q, enc s.box_size qrBorder data = .ok q ∧ r = composite s data q (font data) := by
  unfold render
  cases h : enc s.box_size qrBorder data with
  | error e => simp
  | ok q => simp [eq_comm]

theorem render_isOk_iff (enc : Encoder) (font : GetBBox) (s : Settings) (data : String) :
    (render enc font s data).isOk = true ↔ ∃ r, render enc font s data = .ok r := by
  unfold render
  cases enc s.box_size qrBorder data <;> simp [Except.isOk, Except.toBool]

/-- Floor division by two splits an integer into two near-equal halves. -/
theorem fdiv_two_bounds (a : Int) :
    a.fdiv 2 ≤ a - a.fdiv 2 ∧ a - a.fdiv 2 ≤ a.fdiv 2 + 1 := by
  rw [Int.fdiv_eq_ediv a (by omega : (0 : Int) ≤ 2)]
  omega

/-- C1: for every location string and layout settings, the canvas width
equals max(QR pixel width, caption pixel width) + 2·padding and the canvas
height equals QR pixel height + caption pixel height + 3·padding;
consequently the width is at least the larger of the two component widths
and the height at least the sum of the component heights. -/
theorem canvas_dimensions (enc : Encoder) (font : GetBBox) (s : Settings)
    (data : String) (r : Rendered)
    (h : render enc font s data = .ok r) :
    r.width = max (r.qr.w : Int) ((font data).x1 - (font data).x0)
        + 2 * (s.padding : Int) ∧
    r.height = (r.qr.h : Int) + ((font data).y1 - (font data).y0)
        + 3 * (s.padding : Int) ∧
    max (r.qr.w : Int) ((font data).x1 - (font data).x0) ≤ r.width ∧
    (r.qr.h : Int) + ((font data).y1 - (font data).y0) ≤ r.height := by
  obtain ⟨q, -, rfl⟩ := (render_ok enc font s data r).mp h
  refine ⟨?_, ?_, ?_, ?_⟩ <;>
      simp only [composite_width, composite_height, composite_qr]
  · ring
  · ring
  · exact le_add_of_nonneg_right (by positivity)
  · exact le_add_of_nonneg_right (by positivity)

/-- Witness for C1 at the scenario inputs. -/
theorem canvas_dimensions_witness :
    render encodeDemo fontDemo settingsDemo "Cafe A" = .ok canvasDemo ∧
    (canvasDemo.width = max (canvasDemo.qr.w : Int)
        ((fontDemo "Cafe A").x1 - (fontDemo "Cafe A").x0)
        + 2 * (settingsDemo.padding : Int) ∧
    canvasDemo.height = (canvasDemo.qr.h : Int)
        + ((fontDemo "Cafe A").y1 - (fontDemo "Cafe A").y0)
        + 3 * (settingsDemo.padding : Int) ∧
    max (canvasDemo.qr.w : Int)
        ((fontDemo "Cafe A").x1 - (fontDemo "Cafe A").x0) ≤ canvasDemo.width ∧
    (canvasDemo.qr.h : Int) + ((fontDemo "Cafe A").y1 - (fontDemo "Cafe A").y0)
        ≤ canvasDemo.height) :=
  ⟨by decide,
    canvas_dimensions encodeDemo fontDemo settingsDemo "Cafe A" canvasDemo (by decide)⟩

/-- C2: the QR image is pasted horizontally centred at vertical offset
`padding`, and the caption is drawn horizontally centred at vertical offset
`QR height + 2·padding - bbox.y0`.  Horizontal centring: the left gap and
the right gap differ by at most one pixel. -/
theorem composite_positions (enc : Encoder) (font : GetBBox) (s : Settings)
    (data : String) (r : Rendered)
    (h : render enc font s data = .ok r) :
    r.qrPos = ((r.width - (r.qr.w : Int)).fdiv 2, (s.padding : Int)) ∧
    r.textPos = ((r.width - ((font data).x1 - (font data).x0)).fdiv 2,
      (r.qr.h : Int) + (s.padding : Int) * 2 - (font data).y0) ∧
    r.qrPos.1 ≤ r.width - (r.qr.w : Int) - r.qrPos.1 ∧
    r.width - (r.qr.w : Int) - r.qrPos.1 ≤ r.qrPos.1 + 1 ∧
    r.textPos.1 ≤ r.width - ((font data).x1 - (font data).x0) - r.textPos.1 ∧
    r.width - ((font data).x1 - (font data).x0) - r.textPos.1 ≤ r.textPos.1 + 1 := by
  obtain ⟨q, -, rfl⟩ := (render_ok enc font s data r).mp h
  refine ⟨rfl, rfl, ?_, ?_, ?_, ?_⟩ <;>
      simp only [composite_width, composite_qr, composite_qrPos, composite_textPos] <;>
      first
        | exact (fdiv_two_bounds _).1
        | exact (fdiv_two_bounds _).2

/-- Witness for C2 at the scenario inputs. -/
theorem composite_positions_witness :
    render encodeDemo fontDemo settingsDemo "Cafe A" = .ok canvasDemo ∧
    (canvasDemo.qrPos = ((canvasDemo.width - (canvasDemo.qr.w : Int)).fdiv 2,
        (settingsDemo.padding : Int)) ∧
    canvasDemo.textPos =
      ((canvasDemo.width - ((fontDemo "Cafe A").x1 - (fontDemo "Cafe A").x0)).fdiv 2,
        (canvasDemo.qr.h : Int) + (settingsDemo.padding : Int) * 2
          - (fontDemo "Cafe A").y0) ∧
    canvasDemo.qrPos.1 ≤ canvasDemo.width - (canvasDemo.qr.w : Int) - canvasDemo.qrPos.1 ∧
    canvasDemo.width - (canvasDemo.qr.w : Int) - canvasDemo.qrPos.1 ≤ canvasDemo.qrPos.1 + 1 ∧
    canvasDemo.textPos.1 ≤
      canvasDemo.width - ((fontDemo "Cafe A").x1 - (fontDemo "Cafe A").x0)
        - canvasDemo.textPos.1 ∧
    canvasDemo.width - ((fontDemo "Cafe A").x1 - (fontDemo "Cafe A").x0)
        - canvasDemo.textPos.1 ≤ canvasDemo.textPos.1 + 1) :=
  ⟨by decide,
    composite_positions encodeDemo fontDemo settingsDemo "Cafe A" canvasDemo (by decide)⟩

/-! ## Filename sanitization -/

theorem sanitize_data_eq (s : String) : (sanitize s).data = s.data.map sanChar := by
  show ((s.data.map fun c => if c = '/' then '-' else c).map
      fun c => if c = '\\' then '-' else c) = s.data.map sanChar
  rw [List.map_map]
  rfl

theorem sanChar_cases (c : Char) :
    sanChar c = if c = '/' ∨ c = '\\' then '-' else c := by
  by_cases h1 : c = '/'
  · subst h1; decide
  · by_cases h2 : c = '\\'
    · subst h2; decide
    · simp [sanChar, h1, h2]

theorem sanChar_idem (c : Char) : sanChar (sanChar c) = sanChar c := by
  rw [sanChar_cases c]
  by_cases h : c = '/' ∨ c = '\\'
  · simp only [h, if_pos]; decide
  · simp only [h, if_neg, not_false_iff]
    rw [sanChar_cases c]
    simp [h]

theorem sanChar_ne (c : Char) : sanChar c ≠ '/' ∧ sanChar c ≠ '\\' := by
  rw [sanChar_cases c]
  by_cases h : c = '/' ∨ c = '\\'
  · simp only [h, if_pos]; exact ⟨by decide, by decide⟩
  · simp only [h, if_neg, not_false_iff]
    exact not_or.mp h

/-- C3: filename sanitization is a total function on strings (it is a Lean
function), idempotent, and its output contains neither `/` nor `\`. -/
theorem sanitize_total_idempotent_safe (s : String) :
    sanitize (sanitize s) = sanitize s ∧
    '/' ∉ (sanitize s).data ∧ '\\' ∉ (sanitize s).data := by
  refine ⟨?_, ?_, ?_⟩
  · apply String.ext
    rw [sanitize_data_eq, sanitize_data_eq, List.map_map]
    exact List.map_congr_left fun a _ => sanChar_idem a
  · intro hm
    rw [sanitize_data_eq] at hm
    obtain ⟨a, -, ha⟩ := List.mem_map.mp hm
    exact (sanChar_ne a).1 ha
  · intro hm
    rw [sanitize_data_eq] at hm
    obtain ⟨a, -, ha⟩ := List.mem_map.mp hm
    exact (sanChar_ne a).2 ha

/-! ## Saving, error propagation, and re-runs -/

/-- C6: a location is saved as an RGB image (the RGBA canvas is converted
before saving) at `{output_dir}/{sanitized_location}.png`; the write
overwrites whatever the file system held at that path and touches no other
path. -/
theorem saves_rgb_png (enc : Encoder) (font : GetBBox) (s : Settings)
    (data : String) (r : Rendered) (fs : FS)
    (h : render enc font s data = .ok r) :
    pathOf s data = s.output_dir ++ "/" ++ sanitize data ++ ".png" ∧
    (runLocs enc font s [data] fs).1 (pathOf s data) = some (convertRGB r) ∧
    (convertRGB r).mode = Mode.RGB ∧
    (∀ x, x ≠ pathOf s data → (runLocs enc font s [data] fs).1 x = fs x) := by
  refine ⟨rfl, ?_, rfl, ?_⟩
  · simp [runLocs, h, writeFile]
  · intro x hx
    simp [runLocs, h, writeFile, hx]

/-- Witness for C6 at the scenario inputs and the empty file system. -/
theorem saves_rgb_png_witness :
    render encodeDemo fontDemo settingsDemo "Cafe A" = .ok canvasDemo ∧
    (pathOf settingsDemo "Cafe A" =
        settingsDemo.output_dir ++ "/" ++ sanitize "Cafe A" ++ ".png" ∧
    (runLocs encodeDemo fontDemo settingsDemo ["Cafe A"] fsEmpty).1
        (pathOf settingsDemo "Cafe A") = some (convertRGB canvasDemo) ∧
    (convertRGB canvasDemo).mode = Mode.RGB ∧
    (∀ x, x ≠ pathOf settingsDemo "Cafe A" →
      (runLocs encodeDemo fontDemo settingsDemo ["Cafe A"] fsEmpty).1 x = fsEmpty x)) :=
  ⟨by decide,
    saves_rgb_png encodeDemo fontDemo settingsDemo "Cafe A" canvasDemo fsEmpty (by decide)⟩

/-- C7: every successfully rendered location used the hard-coded border of 4
modules and the configured box size; an encoding error at one location
terminates the batch there: the result is exactly that of processing only
the earlier locations (their PNGs remain on disk), with the error surfaced
and the later locations never processed. -/
theorem qr_error_aborts_batch (enc : Encoder) (font : GetBBox) (s : Settings)
    (pre : List String) (bad : String) (post : List String) (e : QRErr) (fs : FS)
    (hpre : ∀ d ∈ pre, (render enc font s d).isOk = true)
    (hbad : render enc font s bad = .error e) :
    (∀ d r, render enc font s d = .ok r →
      r.border = 4 ∧ r.boxSize = s.box_size) ∧
    runLocs enc font s (pre ++ bad :: post) fs =
      ((runLocs enc font s pre fs).1, (runLocs enc font s pre fs).2.1, some e) := by
  constructor
  · intro d r hr
    obtain ⟨q, -, rfl⟩ := (render_ok enc font s d r).mp hr
    exact ⟨rfl, rfl⟩
  · revert hpre
    induction pre generalizing fs with
    | nil =>
      intro _
      simp [runLocs, hbad]
    | cons d pre ih =>
      intro hpre
      obtain ⟨r, hr⟩ :=
        (render_isOk_iff enc font s d).mp (hpre d (List.mem_cons_self d pre))
      have htail : ∀ d' ∈ pre, (render enc font s d').isOk = true :=
        fun d' hd' => hpre d' (List.mem_cons_of_mem d hd')
      have hstep := ih (writeFile fs (pathOf s d) (convertRGB r)) htail
      simp [runLocs, hr, hstep]

/-- Witness for C7: the second of three locations overflows. -/
theorem qr_error_aborts_batch_witness :
    (∀ d ∈ ["Cafe A"], (render encodeDemo fontDemo settingsDemo d).isOk = true) ∧
    render encodeDemo fontDemo settingsDemo overflowDemo = .error .dataOverflow ∧
    ((∀ d r, render encodeDemo fontDemo settingsDemo d = .ok r →
        r.border = 4 ∧ r.boxSize = settingsDemo.box_size) ∧
      runLocs encodeDemo fontDemo settingsDemo
          (["Cafe A"] ++ overflowDemo :: ["Park/B"]) fsEmpty =
        ((runLocs encodeDemo fontDemo settingsDemo ["Cafe A"] fsEmpty).1,
          (runLocs encodeDemo fontDemo settingsDemo ["Cafe A"] fsEmpty).2.1,
          some .dataOverflow)) :=
  ⟨by decide, by decide,
    qr_error_aborts_batch encodeDemo fontDemo settingsDemo ["Cafe A"] overflowDemo
      ["Park/B"] .dataOverflow fsEmpty (by decide) (by decide)⟩

theorem runLocs_fst_eq (enc : Encoder) (font : GetBBox) (s : Settings)
    (L : List String) (fs : FS) :
    (runLocs enc font s L fs).1 = applyWrites fs (writesOf enc font s L) := by
  induction L generalizing fs with
  | nil => rfl
  | cons d L ih =>
    cases hr : render enc font s d with
    | error e => simp [runLocs, writesOf, hr, applyWrites]
    | ok r => simp [runLocs, writesOf, hr, applyWrites, ih]

theorem applyWrites_apply (ws : List (String × Rendered)) (fs : FS) (x : String) :
    applyWrites fs ws x = (lastWrite x ws).or (fs x) := by
  induction ws generalizing fs with
  | nil => rfl
  | cons pv ws ih =>
    show applyWrites (writeFile fs pv.1 pv.2) ws x = _
    rw [ih]
    cases h : lastWrite x ws with
    | some v => simp [lastWrite, h]
    | none =>
      simp only [lastWrite, h]
      by_cases hx : x = pv.1
      · subst hx
        simp [writeFile, Option.or]
      · have hx' : ¬pv.1 = x := fun hh => hx hh.symm
        simp [writeFile, hx, hx', Option.or]

/-- C8: the generator is deterministic and re-runs overwrite byte-for-byte:
running the batch again over the file system the first run produced yields
that very file system back, and the logs and final error of a run do not
depend on the initial file system at all. -/
theorem rerun_byte_identical (enc : Encoder) (font : GetBBox) (s : Settings)
    (L : List String) (fs fs' : FS) :
    (runLocs enc font s L ((runLocs enc font s L fs).1)).1 =
      (runLocs enc font s L fs).1 ∧
    (runLocs enc font s L fs).2 = (runLocs enc font s L fs').2 := by
  constructor
  · funext x
    rw [runLocs_fst_eq, runLocs_fst_eq, applyWrites_apply, applyWrites_apply]
    cases lastWrite x (writesOf enc font s L) <;> simp [Option.or]
  · induction L generalizing fs fs' with
    | nil => rfl
    | cons d L ih =>
      cases hr : render enc font s d with
      | error e => simp [runLocs, hr]
      | ok r =>
        have h2 := ih (writeFile fs (pathOf s d) (convertRGB r))
          (writeFile fs' (pathOf s d) (convertRGB r))
        simp [runLocs, hr, h2]

theorem makedirs_mem (d : String) (dirs : List String) : d ∈ makedirs d dirs := by
  unfold makedirs
  split
  · assumption
  · exact List.mem_cons_self d dirs

theorem makedirs_subset (d : String) (dirs : List String) : dirs ⊆ makedirs d dirs := by
  unfold makedirs
  split
  · exact fun _ h => h
  · exact List.subset_cons_self d dirs

/-- C9: with an empty locations list the generator still ensures the output
directory exists (preserving previously created directories) and emits the
start-of-batch summary line for zero locations, but writes no files: the
file system is returned unchanged. -/
theorem empty_batch_frame (enc : Encoder) (font : GetBBox) (cfg : Config)
    (st : GenState) (h : cfg.locations = []) :
    (generate_batch enc font cfg st).state.fs = st.fs ∧
    cfg.settings.output_dir ∈ (generate_batch enc font cfg st).state.dirs ∧
    st.dirs ⊆ (generate_batch enc font cfg st).state.dirs ∧
    (generate_batch enc font cfg st).logs = [.start 0] ∧
    (generate_batch enc font cfg st).err = none := by
  refine ⟨?_, makedirs_mem _ _, makedirs_subset _ _, ?_, ?_⟩
  · show (runLocs enc font cfg.settings cfg.locations st.fs).1 = st.fs
    rw [h]
    simp [runLocs]
  · show LogLine.start cfg.locations.length ::
        (runLocs enc font cfg.settings cfg.locations st.fs).2.1 = [LogLine.start 0]
    rw [h]
    simp [runLocs]
  · show (runLocs enc font cfg.settings cfg.locations st.fs).2.2 = none
    rw [h]
    simp [runLocs]

/-- Witness for C9 at an empty configuration. -/
theorem empty_batch_frame_witness :
    cfgEmptyDemo.locations = [] ∧
    ((generate_batch encodeDemo fontDemo cfgEmptyDemo stDemo).state.fs = stDemo.fs ∧
    cfgEmptyDemo.settings.output_dir ∈
      (generate_batch encodeDemo fontDemo cfgEmptyDemo stDemo).state.dirs ∧
    stDemo.dirs ⊆ (generate_batch encodeDemo fontDemo cfgEmptyDemo stDemo).state.dirs ∧
    (generate_batch encodeDemo fontDemo cfgEmptyDemo stDemo).logs = [.start 0] ∧
    (generate_batch encodeDemo fontDemo cfgEmptyDemo stDemo).err = none) :=
  ⟨rfl, empty_batch_frame encodeDemo fontDemo cfgEmptyDemo stDemo rfl⟩

/-! ## The page compiler -/

theorem docPictures_buildDoc (output_dir : String) (pngs : List String) :
    docPictures (buildDoc output_dir pngs) =
      pngs.map fun f =>
        ({ path := output_dir ++ "/" ++ f, heightEmu := 6480000 } : Picture) := by
  unfold docPictures buildDoc
  induction pngs with
  | nil => rfl
  | cons f pngs ih =>
    simp only [List.map_cons, List.flatten_cons, ih]
    rfl

/-- C4: the compiler embeds exactly one picture per directory entry whose
name ends in `.png` case-insensitively, in lexicographic filename order:
the embedded pictures are exactly the sorted PNG names (prefixed with the
directory), the sorted name list is a permutation of the filtered entries,
and it is sorted. -/
theorem compiler_embeds_pngs_sorted (output_dir : String) (entries : List String) :
    docPictures (buildDoc output_dir (pngFilesOf entries)) =
      (pngFilesOf entries).map (fun f =>
        ({ path := output_dir ++ "/" ++ f, heightEmu := 6480000 } : Picture)) ∧
    (docPictures (buildDoc output_dir (pngFilesOf entries))).length =
      (entries.filter isPngName).length ∧
    (pngFilesOf entries).Perm (entries.filter isPngName) ∧
    List.Sorted (· ≤ ·) (pngFilesOf entries) := by
  refine ⟨docPictures_buildDoc _ _, ?_, List.mergeSort_perm _ _, ?_⟩
  · rw [docPictures_buildDoc, List.length_map]
    exact (List.mergeSort_perm (entries.filter isPngName) _).length_eq
  · exact List.sorted_mergeSort' (entries.filter isPngName)

/-- C5 counterexample: on a nonexistent input directory the compiler does
not produce an empty document without error; the `os.listdir` error
propagates instead. -/
theorem compiler_missing_dir_errors :
    create_full_page_qr_doc "data/processed" none = .error .fileNotFound := rfl

/-- C5 amended: if the input directory exists but contains no PNG entries,
the compiler saves an empty document — no pictures, no paragraphs — and
raises no error; a nonexistent directory instead propagates the `listdir`
error. -/
theorem compiler_empty_dir_empty_doc (output_dir : String) (entries : List String)
    (h : entries.filter isPngName = []) :
    create_full_page_qr_doc output_dir (some entries) = .ok (buildDoc output_dir []) ∧
    docPictures (buildDoc output_dir []) = [] ∧
    (buildDoc output_dir []).paragraphs = [] := by
  refine ⟨?_, rfl, rfl⟩
  simp [create_full_page_qr_doc, listdir, pngFilesOf, h]

/-- Witness for the amended C5: a directory with one non-PNG entry. -/
theorem compiler_empty_dir_empty_doc_witness :
    ["readme.txt"].filter isPngName = [] ∧
    (create_full_page_qr_doc "data/processed" (some ["readme.txt"]) =
        .ok (buildDoc "data/processed" []) ∧
    docPictures (buildDoc "data/processed" []) = [] ∧
    (buildDoc "data/processed" []).paragraphs = []) :=
  ⟨by decide,
    compiler_empty_dir_empty_doc "data/processed" ["readme.txt"] (by decide)⟩

/-- C10: the compiler's document contains no text content: every paragraph
is centred and holds exactly one run, with empty text and exactly one
picture.  (The `location_name` computed at line 114 feeds into nothing.) -/
theorem compiler_doc_has_no_text (output_dir : String) (entries : List String) :
    (buildDoc output_dir (pngFilesOf entries)).paragraphs.all centeredPictureOnly
      = true := by
  unfold buildDoc
  apply List.all_eq_true.mpr
  intro p hp
  obtain ⟨f, -, rfl⟩ := List.mem_map.mp hp
  rfl

end QRCode
